import Mathlib

/-!
Shallow embedding of the `plugin_executeInPlace` orchestrator of the
FNNDSC/salsa repository (src/src/plugins/plugin_executeInPlace.ts and its
internal twins src/src/plugins/internal/plugin_executeNewFeed.ts and
src/src/plugins/internal/plugin_executeContinueFeed.ts).

The orchestrator's collaborators (the `@fnndsc/cumin` path helpers, the
`feed_create` wrapper and the `plugin_run` wrapper, all of which delegate to
the remote backend) are modelled as an explicit environment of oracle
functions: every claim about the orchestrator conditions on the values these
collaborators return.  Remote calls and error-stack pushes are recorded in an
explicit trace so that call-count and diagnostic-message properties can be
stated.  JavaScript `undefined` values are modelled with `Option`, and the
one place where the source can throw (member access on a possibly-undefined
field of the create-feed response) is modelled with `Except`.
-/

/-- A JavaScript runtime value, as far as the orchestrator inspects one:
numbers, strings, booleans and `undefined`. -/
inductive JSVal where
  | num (n : Int)
  | str (s : String)
  | bool (b : Bool)
  | undefined
deriving DecidableEq, Repr

/-- JavaScript truthiness of a value (`if (v)` / `v ? _ : _` / `v || _`). -/
def JSVal.truthy : JSVal → Bool
  | .num n => n != 0
  | .str s => s ≠ ""
  | .bool b => b
  | .undefined => false

/-- The string a value turns into inside a template literal. -/
def JSVal.display : JSVal → String
  | .num n => toString n
  | .str s => s
  | .bool b => if b then "true" else "false"
  | .undefined => "undefined"

/-- The `Dictionary` type of the source (a plain string-keyed object),
modelled by its key-to-value mapping; an absent key maps to `none`
(JavaScript `undefined`). -/
def Dictionary : Type := String → Option JSVal

/-- Property assignment / spread-override: `{...d, k: v}` or `d.k = v`. -/
def Dictionary.insert (d : Dictionary) (k : String) (v : JSVal) : Dictionary :=
  fun q => if q = k then some v else d q

/-- The empty object `{}`. -/
def Dictionary.empty : Dictionary := fun _ => none

/-- Template-literal interpolation of a possibly-undefined number. -/
def showNum? : Option Int → String
  | some n => toString n
  | none => "undefined"

/-- Template-literal interpolation of a possibly-undefined string. -/
def showStr? : Option String → String
  | some s => s
  | none => "undefined"

/-- A possibly-undefined number as a value stored into a dictionary. -/
def jsOfNum? : Option Int → JSVal
  | some n => .num n
  | none => .undefined

/-- The runtime error the orchestrator itself can raise: a `TypeError` from
member access on `undefined`. -/
inductive JSError where
  | typeError
deriving DecidableEq, Repr

/-- The `.data` field of the create-feed response's `pluginInstance` field,
as accessed by `(feedResult.pluginInstance as any).data.id`. -/
structure DataField where
  id : Option Int
deriving DecidableEq, Repr

/-- The `pluginInstance` field of the create-feed response. -/
structure PluginInstanceField where
  data : Option DataField
deriving DecidableEq, Repr

/-- The shape of a `feed_create` response, as far as the orchestrator reads
it: `feedResult.id` and `feedResult.pluginInstance.data.id`.  Each field may
be absent (`undefined`). -/
structure FeedCreateResp where
  id : Option Int
  pluginInstance : Option PluginInstanceField
deriving DecidableEq, Repr

/-- The shape of a `plugin_run` response, as far as the orchestrator reads
it: `pluginResult.id` and `pluginResult.plugin_name`. -/
structure PluginRunResp where
  id : Option Int
  plugin_name : Option String
deriving DecidableEq, Repr

/-- The `PluginExecutionResult` record of the source.  The outer `Option` on
`feedID` / `dircopyInstanceID` models key presence (the keys are absent on
the continue-feed path); the inner `Option` models an `undefined` value. -/
structure PluginExecutionResult where
  feedID : Option (Option Int) := none
  dircopyInstanceID : Option (Option Int) := none
  pluginInstanceID : Option Int
  pluginName : Option String
  outputPath : String
deriving DecidableEq, Repr

/-- One remote call issued by the orchestrator, with the arguments it was
given. -/
inductive RemoteCall where
  | feedCreate (dirs : List String) (params : String)
  | pluginRun (name : String) (params : Dictionary)

/-- Whether a recorded remote call is a create-feed call. -/
def RemoteCall.isFeedCreate : RemoteCall → Bool
  | .feedCreate _ _ => true
  | .pluginRun _ _ => false

/-- Whether a recorded remote call is a run-computation call. -/
def RemoteCall.isPluginRun : RemoteCall → Bool
  | .feedCreate _ _ => false
  | .pluginRun _ _ => true

/-- The environment of external collaborators: the pure `@fnndsc/cumin` path
helpers and the two remote operations, as oracle functions.  The claims
condition on the values these return. -/
structure Env where
  path_isInFeed : String → Bool
  path_findLatestDircopy : List String → Option String
  path_extractPluginInstanceID : String → Option Int
  path_extractFeedID : String → Option Int
  feed_create : List String → String → Option FeedCreateResp
  plugin_run : String → Dictionary → Option PluginRunResp

/-- The observable outcome of one orchestration: the returned value (or the
escaped exception), the remote calls issued, in order, and the messages
pushed onto the error stack, in order. -/
structure ExecOutcome where
  result : Except JSError (Option PluginExecutionResult)
  calls : List RemoteCall
  errors : List String

/-- JavaScript `s.split('/')` on the character list: split at every
separator, keeping empty pieces (also leading and trailing ones). -/
def splitCharsOn (c : Char) : List Char → List (List Char)
  | [] => [[]]
  | ch :: rest =>
    let r := splitCharsOn c rest
    if ch = c then [] :: r
    else
      match r with
      | [] => [[ch]]
      | h :: t => (ch :: h) :: t

/-- JavaScript `cwd.split('/')`. -/
def jsSplitSlash (s : String) : List String :=
  (splitCharsOn '/' s.data).map String.mk

/-- JavaScript `s.endsWith(suffix)`. -/
def jsEndsWith (s suf : String) : Bool :=
  suf.data.isSuffixOf s.data

/-- JavaScript `parts.join('/')`. -/
def jsJoinSlash : List String → String
  | [] => ""
  | [s] => s
  | s :: rest => s ++ "/" ++ jsJoinSlash rest

/-- `path.basename` (posix) on the reversed character list: drop trailing
separators, then take the last path component. -/
def basenameRev (l : List Char) : List Char :=
  let l1 := l.dropWhile (· = '/')
  if l1.isEmpty then (if l.isEmpty then [] else ['/'])
  else l1.takeWhile (· ≠ '/')

/-- Node's `path.basename` for posix paths. -/
def jsBasename (p : String) : String :=
  String.mk ((basenameRev p.data.reverse).reverse)

/-- `const feedTitle = (contextParams.feed_title as string) || path.basename(cwd)`. -/
def feedTitleOf (contextParams : Dictionary) (cwd : String) : String :=
  match contextParams "feed_title" with
  | some v => if v.truthy then v.display else jsBasename cwd
  | none => jsBasename cwd

/-- The combined run parameters: `{...pluginParams, previous_id: prev}`,
then `combinedParams.title = contextParams.instance_title` when that value
is truthy. -/
def combinedParamsOf (pluginParams contextParams : Dictionary)
    (previousVal : JSVal) : Dictionary :=
  let base := pluginParams.insert "previous_id" previousVal
  match contextParams "instance_title" with
  | some v => if v.truthy then base.insert "title" v else base
  | none => base

/-- `cwd.split('/')[2]` — the third slash-delimited segment, when present. -/
def usernameOf (cwd : String) : Option String :=
  (jsSplitSlash cwd).get? 2

/-- The loop of the continue-feed path: find the first path segment ending in
`_<previousID>` and return the slash-joined segments up to and including it;
the empty string when no segment matches (the loop leaves
`previousPluginPath` at its initial `''`). -/
def previousPluginPathOf (cwd : String) (previousID : Int) : String :=
  let pathParts := jsSplitSlash cwd
  match pathParts.findIdx? (fun part => jsEndsWith part ("_" ++ toString previousID)) with
  | some i => jsJoinSlash (pathParts.take (i + 1))
  | none => ""

/-- The new-feed execution path (`plugin_executeNewFeed`, inlined verbatim in
the `!isInFeed` branch of `plugin_executeInPlace`). -/
def plugin_executeNewFeed (env : Env) (pluginName : String)
    (pluginParams contextParams : Dictionary) (cwd : String)
    (binListing : List String) : ExecOutcome :=
  let feedTitle : String := feedTitleOf contextParams cwd
  match env.path_findLatestDircopy binListing with
  | none =>
      { result := .ok none, calls := [],
        errors := ["pl-dircopy not found. Cannot create feeds."] }
  | some _dircopyPlugin =>
      let createParams : String := "title:" ++ feedTitle
      match env.feed_create [cwd] createParams with
      | none =>
          { result := .ok none, calls := [.feedCreate [cwd] createParams],
            errors := ["Failed to create feed"] }
      | some feedResult =>
          let feedID : Option Int := feedResult.id
          match feedResult.pluginInstance with
          | none =>
              { result := .error .typeError,
                calls := [.feedCreate [cwd] createParams], errors := [] }
          | some pi =>
              match pi.data with
              | none =>
                  { result := .error .typeError,
                    calls := [.feedCreate [cwd] createParams], errors := [] }
              | some d =>
                  let dircopyInstanceID : Option Int := d.id
                  let combinedParams : Dictionary :=
                    combinedParamsOf pluginParams contextParams (jsOfNum? dircopyInstanceID)
                  match env.plugin_run pluginName combinedParams with
                  | none =>
                      { result := .ok none,
                        calls := [.feedCreate [cwd] createParams,
                                  .pluginRun pluginName combinedParams],
                        errors := ["Failed to run plugin"] }
                  | some pluginResult =>
                      let pluginInstanceID : Option Int := pluginResult.id
                      let actualPluginName : Option String := pluginResult.plugin_name
                      let username : Option String := usernameOf cwd
                      let outputPath : String :=
                        "/home/" ++ showStr? username ++ "/feeds/feed_" ++ showNum? feedID ++
                        "/pl-dircopy_" ++ showNum? dircopyInstanceID ++ "/" ++
                        showStr? actualPluginName ++ "_" ++ showNum? pluginInstanceID ++ "/data/"
                      { result := .ok (some
                          { feedID := some feedID,
                            dircopyInstanceID := some dircopyInstanceID,
                            pluginInstanceID := pluginInstanceID,
                            pluginName := actualPluginName,
                            outputPath := outputPath }),
                        calls := [.feedCreate [cwd] createParams,
                                  .pluginRun pluginName combinedParams],
                        errors := [] }

/-- The continue-feed execution path (`plugin_executeContinueFeed`, inlined
verbatim in the `isInFeed` branch of `plugin_executeInPlace`). -/
def plugin_executeContinueFeed (env : Env) (pluginName : String)
    (pluginParams contextParams : Dictionary) (cwd : String) : ExecOutcome :=
  match env.path_extractPluginInstanceID cwd with
  | none =>
      { result := .ok none, calls := [],
        errors := ["Could not extract plugin instance ID from current directory path"] }
  | some previousID =>
      match env.path_extractFeedID cwd with
      | none =>
          { result := .ok none, calls := [],
            errors := ["Could not extract feed ID from current directory path"] }
      | some feedID =>
          let combinedParams : Dictionary :=
            combinedParamsOf pluginParams contextParams (.num previousID)
          match env.plugin_run pluginName combinedParams with
          | none =>
              { result := .ok none,
                calls := [.pluginRun pluginName combinedParams],
                errors := ["Failed to run plugin"] }
          | some pluginResult =>
              let pluginInstanceID : Option Int := pluginResult.id
              let actualPluginName : Option String := pluginResult.plugin_name
              let located : String := previousPluginPathOf cwd previousID
              let previousPluginPath : String :=
                if located = "" then
                  "/home/" ++ showStr? (usernameOf cwd) ++ "/feeds/feed_" ++
                  toString feedID ++ "/previous_" ++ toString previousID
                else located
              let outputPath : String :=
                previousPluginPath ++ "/" ++ showStr? actualPluginName ++ "_" ++
                showNum? pluginInstanceID ++ "/data/"
              { result := .ok (some
                  { pluginInstanceID := pluginInstanceID,
                    pluginName := actualPluginName,
                    outputPath := outputPath }),
                calls := [.pluginRun pluginName combinedParams],
                errors := [] }

/-- The top-level orchestrator `plugin_executeInPlace`: classify the working
directory, then run the new-feed or the continue-feed path. -/
def plugin_executeInPlace (env : Env) (pluginName : String)
    (pluginParams contextParams : Dictionary) (cwd : String)
    (binListing : List String) : ExecOutcome :=
  let isInFeed : Bool := env.path_isInFeed cwd
  if !isInFeed then
    plugin_executeNewFeed env pluginName pluginParams contextParams cwd binListing
  else
    plugin_executeContinueFeed env pluginName pluginParams contextParams cwd

/-- Whether `contextParams.instance_title` passes the source's truthiness
test (`if (contextParams.instance_title)`). -/
def instanceTitleTruthy (contextParams : Dictionary) : Bool :=
  match contextParams "instance_title" with
  | some v => v.truthy
  | none => false

/-! Concrete mock environments used to instantiate the theorems below. -/

/-- A backend in which classification reports a fresh directory and both
remote calls succeed with well-formed responses. -/
def envC1 : Env :=
  { path_isInFeed := fun _ => false,
    path_findLatestDircopy := fun _ => some "pl-dircopy-v2.1.1",
    path_extractPluginInstanceID := fun _ => none,
    path_extractFeedID := fun _ => none,
    feed_create := fun _ _ =>
      some { id := some 10, pluginInstance := some { data := some { id := some 20 } } },
    plugin_run := fun _ _ => some { id := some 30, plugin_name := some "pl-foo" } }

/-- A backend for the continue-feed path whose run call succeeds. -/
def envC2 : Env :=
  { path_isInFeed := fun _ => true,
    path_findLatestDircopy := fun _ => none,
    path_extractPluginInstanceID := fun _ => some 20,
    path_extractFeedID := fun _ => some 10,
    feed_create := fun _ _ => none,
    plugin_run := fun _ _ => some { id := some 31, plugin_name := some "pl-bar" } }

/-- A backend whose create-feed response is present but has no
`pluginInstance` field. -/
def envC3 : Env :=
  { path_isInFeed := fun _ => false,
    path_findLatestDircopy := fun _ => some "pl-dircopy-v2.1.1",
    path_extractPluginInstanceID := fun _ => none,
    path_extractFeedID := fun _ => none,
    feed_create := fun _ _ => some { id := some 42, pluginInstance := none },
    plugin_run := fun _ _ => some { id := some 30, plugin_name := some "pl-foo" } }

/-- A backend whose create-feed response lacks the feed id but carries the
nested bootstrap-instance id. -/
def envC3b : Env :=
  { envC3 with
    feed_create := fun _ _ =>
      some { id := none, pluginInstance := some { data := some { id := some 20 } } } }

/-- A backend in which no dircopy plugin can be found. -/
def envC4 : Env :=
  { path_isInFeed := fun _ => false,
    path_findLatestDircopy := fun _ => none,
    path_extractPluginInstanceID := fun _ => none,
    path_extractFeedID := fun _ => none,
    feed_create := fun _ _ => none,
    plugin_run := fun _ _ => none }

/-- A backend whose create-feed call succeeds but whose run call fails. -/
def envC5 : Env :=
  { path_isInFeed := fun _ => false,
    path_findLatestDircopy := fun _ => some "pl-dircopy-v2.1.1",
    path_extractPluginInstanceID := fun _ => none,
    path_extractFeedID := fun _ => none,
    feed_create := fun _ _ =>
      some { id := some 10, pluginInstance := some { data := some { id := some 20 } } },
    plugin_run := fun _ _ => none }

/-- A backend that classifies the directory as in a feed but cannot extract
any ids from it. -/
def envC6 : Env :=
  { path_isInFeed := fun _ => true,
    path_findLatestDircopy := fun _ => none,
    path_extractPluginInstanceID := fun _ => none,
    path_extractFeedID := fun _ => none,
    feed_create := fun _ _ => none,
    plugin_run := fun _ _ => none }

/-- Caller parameters that already carry a `previous_id` entry. -/
def paramsC7 : Dictionary := Dictionary.empty.insert "previous_id" (.num 999)

/-- Context parameters with a truthy `instance_title`. -/
def ctxC7 : Dictionary := Dictionary.empty.insert "instance_title" (.str "Segment Cortex")

/-- A fresh-path backend for the parameter-dictionary claims. -/
def envC7 : Env :=
  { path_isInFeed := fun _ => false,
    path_findLatestDircopy := fun _ => some "pl-dircopy-v2.1.1",
    path_extractPluginInstanceID := fun _ => none,
    path_extractFeedID := fun _ => none,
    feed_create := fun _ _ =>
      some { id := some 10, pluginInstance := some { data := some { id := some 20 } } },
    plugin_run := fun _ _ => some { id := some 30, plugin_name := some "pl-foo" } }

/-- A continue-path backend used to exercise the degenerate-path fallback. -/
def envC8 : Env :=
  { path_isInFeed := fun _ => true,
    path_findLatestDircopy := fun _ => none,
    path_extractPluginInstanceID := fun _ => some 20,
    path_extractFeedID := fun _ => some 10,
    feed_create := fun _ _ => none,
    plugin_run := fun _ _ => some { id := some 7, plugin_name := some "pl-qux" } }

/-- A continue-path backend whose run succeeds. -/
def envC9 : Env :=
  { path_isInFeed := fun _ => true,
    path_findLatestDircopy := fun _ => none,
    path_extractPluginInstanceID := fun _ => some 20,
    path_extractFeedID := fun _ => some 10,
    feed_create := fun _ _ => none,
    plugin_run := fun _ _ => some { id := some 31, plugin_name := some "pl-bar" } }

/-- The success record the continue-feed path produces under `envC9`. -/
def rC9 : PluginExecutionResult :=
  { pluginInstanceID := some 31, pluginName := some "pl-bar",
    outputPath := "/home/alice/feeds/feed_10/pl-dircopy_20/pl-bar_31/data/" }

/-- A continue-path backend for the previous-id-override claim. -/
def envC10 : Env :=
  { path_isInFeed := fun _ => true,
    path_findLatestDircopy := fun _ => none,
    path_extractPluginInstanceID := fun _ => some 456,
    path_extractFeedID := fun _ => some 123,
    feed_create := fun _ _ => none,
    plugin_run := fun _ _ => some { id := some 77, plugin_name := some "pl-seg" } }

/-! Helper lemmas about the string operations of the embedding. -/

/-- The character data of the empty string. -/
lemma empty_string_data : ("" : String).data = [] := rfl

/-- A string whose left append part has nonempty data is nonempty. -/
lemma append_ne_empty_of_left {a : String} (b : String) (ha : a.data ≠ []) :
    a ++ b ≠ "" := by
  intro h
  have hd := congrArg String.data h
  rw [String.data_append, empty_string_data, List.append_eq_nil] at hd
  exact ha hd.1

/-- A segment that a nonempty string is a suffix of is itself nonempty. -/
lemma ne_empty_of_jsEndsWith {part suf : String} (hs : suf.data ≠ [])
    (h : jsEndsWith part suf = true) : part ≠ "" := by
  intro hp
  subst hp
  rw [jsEndsWith, empty_string_data] at h
  have hsuffix : suf.data <:+ ([] : List Char) := List.isSuffixOf_iff_suffix.mp h
  exact hs (List.suffix_nil.mp hsuffix)

/-- The suffix `_<id>` that the continue-feed scan matches against is never
the empty string. -/
lemma idSuffix_data_ne_nil (n : Int) : ("_" ++ toString n).data ≠ [] := by
  intro h
  rw [String.data_append, List.append_eq_nil] at h
  have hu : ("_" : String).data = ['_'] := rfl
  rw [hu] at h
  exact absurd h.1 (by simp)

/-- `findIdx?` returning `some i` gives a matching element at index `i`. -/
lemma findIdx?_some_get {α} {p : α → Bool} {l : List α} {i : Nat}
    (h : l.findIdx? p = some i) :
    ∃ hi : i < l.length, p (l.get ⟨i, hi⟩) = true := by
  obtain ⟨h1, h2⟩ := List.findIdx?_eq_some_iff_findIdx_eq.mp h
  refine ⟨h1, ?_⟩
  subst h2
  simpa using List.findIdx_getElem (w := h1)

/-- Joining two or more segments with slashes never yields the empty string. -/
lemma jsJoinSlash_cons_cons_ne_empty (s x : String) (xs : List String) :
    jsJoinSlash (s :: x :: xs) ≠ "" := by
  show s ++ "/" ++ jsJoinSlash (x :: xs) ≠ ""
  apply append_ne_empty_of_left
  rw [String.data_append]
  simp

/-- Joining the first `i + 1` segments is nonempty when the segment at index
`i` is nonempty. -/
lemma jsJoinSlash_take_ne_empty {l : List String} {i : Nat} (hi : i < l.length)
    (hp : l.get ⟨i, hi⟩ ≠ "") : jsJoinSlash (l.take (i + 1)) ≠ "" := by
  induction l generalizing i with
  | nil => cases hi
  | cons a t ih =>
      cases i with
      | zero => simpa [jsJoinSlash] using hp
      | succ n =>
          have hn : n < t.length := Nat.lt_of_succ_lt_succ hi
          have ht : t.take (n + 1) ≠ [] := by
            apply List.ne_nil_of_length_pos
            rw [List.length_take]
            omega
          rw [List.take_succ_cons]
          obtain ⟨x, xs, hxx⟩ := List.exists_cons_of_ne_nil ht
          rw [hxx]
          exact jsJoinSlash_cons_cons_ne_empty a x xs

/-- When the scan of the continue-feed path finds a matching segment, the
computed previous-instance path is the nonempty slash-join of the segments up
to and including it. -/
lemma previousPluginPathOf_found {cwd : String} {I : Int} {i : Nat}
    (h : (jsSplitSlash cwd).findIdx?
      (fun part => jsEndsWith part ("_" ++ toString I)) = some i) :
    previousPluginPathOf cwd I = jsJoinSlash ((jsSplitSlash cwd).take (i + 1)) ∧
    previousPluginPathOf cwd I ≠ "" := by
  have heq : previousPluginPathOf cwd I
      = jsJoinSlash ((jsSplitSlash cwd).take (i + 1)) := by
    rw [previousPluginPathOf]
    simp only [h]
  refine ⟨heq, ?_⟩
  rw [heq]
  obtain ⟨hi, hp⟩ := findIdx?_some_get h
  exact jsJoinSlash_take_ne_empty hi (ne_empty_of_jsEndsWith (idSuffix_data_ne_nil I) hp)

/-- An output path of the form `pp/x_y/data/` decomposes as a prefix followed
by the `/x_y/data/` suffix. -/
lemma append_outputPath_decomp (pp x y : String) :
    ∃ pre, pp ++ "/" ++ x ++ "_" ++ y ++ "/data/"
      = pre ++ ("/" ++ x ++ "_" ++ y ++ "/data/") :=
  ⟨pp, by simp [String.append_assoc]⟩

/-- Pointwise description of the combined run parameters: `previous_id` is
bound to the derived value, `title` to the instance title exactly when that
is truthy, and every other key keeps its caller-supplied value. -/
lemma combinedParamsOf_spec (pluginParams contextParams : Dictionary) (v : JSVal)
    (k : String) :
    combinedParamsOf pluginParams contextParams v k =
      if k = "previous_id" then some v
      else if k = "title" ∧ instanceTitleTruthy contextParams = true then
        contextParams "instance_title"
      else pluginParams k := by
  rw [combinedParamsOf, instanceTitleTruthy]
  cases ht : contextParams "instance_title" with
  | none =>
      by_cases hk : k = "previous_id" <;>
        simp [Dictionary.insert, hk]
  | some w =>
      by_cases hw : w.truthy
      · by_cases hk1 : k = "title"
        · subst hk1
          simp [Dictionary.insert, hw, ht]
        · by_cases hk2 : k = "previous_id" <;>
            simp [Dictionary.insert, hw, hk1, hk2]
      · by_cases hk2 : k = "previous_id" <;>
          simp [Dictionary.insert, hw, hk2]

/-- Any run-computation call recorded in the trace carries the plugin name
the orchestrator was given, and its parameter dictionary is the combined
dictionary built from the branch-derived previous-instance id. -/
lemma pluginRun_call_shape (env : Env) (pluginName : String)
    (pluginParams contextParams : Dictionary) (cwd : String) (binListing : List String)
    (name : String) (d : Dictionary)
    (hmem : RemoteCall.pluginRun name d
      ∈ (plugin_executeInPlace env pluginName pluginParams contextParams cwd
          binListing).calls) :
    name = pluginName ∧
    ((env.path_isInFeed cwd = false ∧
      ∃ resp pif df,
        env.feed_create [cwd] ("title:" ++ feedTitleOf contextParams cwd) = some resp ∧
        resp.pluginInstance = some pif ∧ pif.data = some df ∧
        d = combinedParamsOf pluginParams contextParams (jsOfNum? df.id)) ∨
     (env.path_isInFeed cwd = true ∧
      ∃ I, env.path_extractPluginInstanceID cwd = some I ∧
        d = combinedParamsOf pluginParams contextParams (.num I))) := by
  cases hc : env.path_isInFeed cwd with
  | false =>
      simp only [plugin_executeInPlace, plugin_executeNewFeed, hc, Bool.not_false,
        if_true] at hmem
      cases hd : env.path_findLatestDircopy binListing with
      | none => simp [hd] at hmem
      | some dp =>
          simp only [hd] at hmem
          cases hcr : env.feed_create [cwd] ("title:" ++ feedTitleOf contextParams cwd) with
          | none => simp [hcr] at hmem
          | some resp =>
              simp only [hcr] at hmem
              cases hpi : resp.pluginInstance with
              | none => simp [hpi] at hmem
              | some pif =>
                  simp only [hpi] at hmem
                  cases hdf : pif.data with
                  | none => simp [hdf] at hmem
                  | some df =>
                      simp only [hdf] at hmem
                      cases hr : env.plugin_run pluginName
                          (combinedParamsOf pluginParams contextParams (jsOfNum? df.id)) with
                      | none =>
                          simp only [hr, List.mem_cons, List.mem_singleton] at hmem
                          rcases hmem with h1 | h1 | h1
                          · cases h1
                          · obtain ⟨hn, hd9⟩ := RemoteCall.pluginRun.inj h1
                            exact ⟨hn, Or.inl ⟨rfl, resp, pif, df, rfl, hpi, hdf, hd9⟩⟩
                          · cases h1
                      | some respR =>
                          simp only [hr, List.mem_cons, List.mem_singleton] at hmem
                          rcases hmem with h1 | h1 | h1
                          · cases h1
                          · obtain ⟨hn, hd9⟩ := RemoteCall.pluginRun.inj h1
                            exact ⟨hn, Or.inl ⟨rfl, resp, pif, df, rfl, hpi, hdf, hd9⟩⟩
                          · cases h1
  | true =>
      simp only [plugin_executeInPlace, plugin_executeContinueFeed, hc, Bool.not_true,
        Bool.false_eq_true, if_false] at hmem
      cases hp : env.path_extractPluginInstanceID cwd with
      | none => simp [hp] at hmem
      | some I =>
          simp only [hp] at hmem
          cases hf : env.path_extractFeedID cwd with
          | none => simp [hf] at hmem
          | some F =>
              simp only [hf] at hmem
              cases hr : env.plugin_run pluginName
                  (combinedParamsOf pluginParams contextParams (.num I)) with
              | none =>
                  simp only [hr, List.mem_singleton] at hmem
                  obtain ⟨hn, hd9⟩ := RemoteCall.pluginRun.inj hmem
                  exact ⟨hn, Or.inr ⟨rfl, I, rfl, hd9⟩⟩
              | some respR =>
                  simp only [hr, List.mem_singleton] at hmem
                  obtain ⟨hn, hd9⟩ := RemoteCall.pluginRun.inj hmem
                  exact ⟨hn, Or.inr ⟨rfl, I, rfl, hd9⟩⟩

/-- C1: on a fresh-feed execution in which the create-feed call returns feed
id F with bootstrap dircopy instance id D and the remote run returns instance
id N with resolved name P, `plugin_executeInPlace` returns a result whose
feedID is F, dircopyInstanceID is D, pluginInstanceID is N, pluginName is P,
and whose outputPath is `/home/<user>/feeds/feed_F/pl-dircopy_D/P_N/data/`
with `<user>` the third slash-delimited segment of cwd. -/
theorem C1_freshFeed_result (env : Env) (pluginName : String)
    (pluginParams contextParams : Dictionary) (cwd : String) (binListing : List String)
    (F D N : Int) (P dircopyPlugin user : String)
    (hclass : env.path_isInFeed cwd = false)
    (hdir : env.path_findLatestDircopy binListing = some dircopyPlugin)
    (hcreate : env.feed_create [cwd] ("title:" ++ feedTitleOf contextParams cwd)
      = some { id := some F, pluginInstance := some { data := some { id := some D } } })
    (hrun : env.plugin_run pluginName (combinedParamsOf pluginParams contextParams (.num D))
      = some { id := some N, plugin_name := some P })
    (huser : usernameOf cwd = some user) :
    (plugin_executeInPlace env pluginName pluginParams contextParams cwd binListing).result
      = .ok (some
        { feedID := some (some F), dircopyInstanceID := some (some D),
          pluginInstanceID := some N, pluginName := some P,
          outputPath := "/home/" ++ user ++ "/feeds/feed_" ++ toString F ++
            "/pl-dircopy_" ++ toString D ++ "/" ++ P ++ "_" ++ toString N ++ "/data/" }) := by
  simp only [plugin_executeInPlace, plugin_executeNewFeed, hclass, hdir, hcreate,
    Bool.not_false, if_true, jsOfNum?, hrun, huser, showStr?, showNum?]

/-- C1 witness: the concrete instance of the claim, with F=10, D=20,
P="pl-foo", N=30 and cwd="/home/alice/uploads/study1". -/
theorem C1_freshFeed_result_witness :
    (plugin_executeInPlace envC1 "pl-foo-v1.0.0" Dictionary.empty Dictionary.empty
      "/home/alice/uploads/study1" ["pl-dircopy-v2.1.1"]).result
      = .ok (some
        { feedID := some (some 10), dircopyInstanceID := some (some 20),
          pluginInstanceID := some 30, pluginName := some "pl-foo",
          outputPath := "/home/alice/feeds/feed_10/pl-dircopy_20/pl-foo_30/data/" }) :=
  C1_freshFeed_result envC1 "pl-foo-v1.0.0" Dictionary.empty Dictionary.empty
    "/home/alice/uploads/study1" ["pl-dircopy-v2.1.1"] 10 20 30 "pl-foo"
    "pl-dircopy-v2.1.1" "alice" rfl rfl rfl rfl rfl

/-- C2: on a continue-feed execution, the outputPath is the slash-joined
prefix of cwd up to and including the first segment ending in `_I`, followed
by `/P_N/data/`; when no segment ends in `_I`, the prefix is instead the
synthesized `/home/<user>/feeds/feed_F/previous_I`. -/
theorem C2_continueFeed_outputPath (env : Env) (pluginName : String)
    (pluginParams contextParams : Dictionary) (cwd : String) (binListing : List String)
    (I F N : Int) (P : String)
    (hclass : env.path_isInFeed cwd = true)
    (hprev : env.path_extractPluginInstanceID cwd = some I)
    (hfid : env.path_extractFeedID cwd = some F)
    (hrun : env.plugin_run pluginName (combinedParamsOf pluginParams contextParams (.num I))
      = some { id := some N, plugin_name := some P }) :
    (∀ i, (jsSplitSlash cwd).findIdx?
        (fun part => jsEndsWith part ("_" ++ toString I)) = some i →
      (plugin_executeInPlace env pluginName pluginParams contextParams cwd binListing).result
        = .ok (some
          { pluginInstanceID := some N, pluginName := some P,
            outputPath := jsJoinSlash ((jsSplitSlash cwd).take (i + 1)) ++ "/" ++ P ++ "_" ++
              toString N ++ "/data/" })) ∧
    ((∀ part ∈ jsSplitSlash cwd, jsEndsWith part ("_" ++ toString I) = false) →
      (plugin_executeInPlace env pluginName pluginParams contextParams cwd binListing).result
        = .ok (some
          { pluginInstanceID := some N, pluginName := some P,
            outputPath := "/home/" ++ showStr? (usernameOf cwd) ++ "/feeds/feed_" ++
              toString F ++ "/previous_" ++ toString I ++ "/" ++ P ++ "_" ++ toString N ++
              "/data/" })) := by
  constructor
  · intro i hi
    obtain ⟨heq, hne⟩ := previousPluginPathOf_found hi
    simp only [plugin_executeInPlace, plugin_executeContinueFeed, hclass, hprev, hfid, hrun,
      Bool.not_true, Bool.false_eq_true, if_false, showStr?, showNum?]
    rw [if_neg hne, heq]
  · intro hall
    have hnone : (jsSplitSlash cwd).findIdx?
        (fun part => jsEndsWith part ("_" ++ toString I)) = none :=
      List.findIdx?_eq_none_iff.mpr hall
    have heq : previousPluginPathOf cwd I = "" := by
      rw [previousPluginPathOf]
      simp only [hnone]
    simp only [plugin_executeInPlace, plugin_executeContinueFeed, hclass, hprev, hfid, hrun,
      Bool.not_true, Bool.false_eq_true, if_false, heq, if_true, showStr?, showNum?,
      String.append_assoc]

/-- C2 witness: the matched-prefix case on the spec's round-trip example and
the fallback case on an altered path with no matching segment. -/
theorem C2_continueFeed_outputPath_witness :
    (plugin_executeInPlace envC2 "pl-bar-v1.0.0" Dictionary.empty Dictionary.empty
      "/home/alice/feeds/feed_10/pl-dircopy_20/data/" []).result
      = .ok (some
        { pluginInstanceID := some 31, pluginName := some "pl-bar",
          outputPath := "/home/alice/feeds/feed_10/pl-dircopy_20/pl-bar_31/data/" }) ∧
    (plugin_executeInPlace envC2 "pl-bar-v1.0.0" Dictionary.empty Dictionary.empty
      "/home/bob/uploads/study2" []).result
      = .ok (some
        { pluginInstanceID := some 31, pluginName := some "pl-bar",
          outputPath := "/home/bob/feeds/feed_10/previous_20/pl-bar_31/data/" }) := by
  constructor
  · exact (C2_continueFeed_outputPath envC2 "pl-bar-v1.0.0" Dictionary.empty Dictionary.empty
      "/home/alice/feeds/feed_10/pl-dircopy_20/data/" [] 20 10 31 "pl-bar"
      rfl rfl rfl rfl).1 5 (by rfl)
  · exact (C2_continueFeed_outputPath envC2 "pl-bar-v1.0.0" Dictionary.empty Dictionary.empty
      "/home/bob/uploads/study2" [] 20 10 31 "pl-bar" rfl rfl rfl rfl).2 (by decide)

/-- C3: contrary to the claim, a present but malformed create-feed response
is not converted to a null return.  When the response lacks the
`pluginInstance` field, the member access
`(feedResult.pluginInstance as any).data.id` raises a TypeError that escapes
the orchestrator; when only the feed id is missing, the orchestrator returns
a success record whose feedID is undefined and whose outputPath contains the
text `feed_undefined`, rather than failing. -/
theorem C3_malformed_response_behavior :
    (plugin_executeInPlace envC3 "pl-foo-v1.0.0" Dictionary.empty Dictionary.empty
      "/home/alice/uploads/study1" ["pl-dircopy-v2.1.1"]).result = .error .typeError ∧
    (plugin_executeInPlace envC3b "pl-foo-v1.0.0" Dictionary.empty Dictionary.empty
      "/home/alice/uploads/study1" ["pl-dircopy-v2.1.1"]).result
      = .ok (some
        { feedID := some none, dircopyInstanceID := some (some 20),
          pluginInstanceID := some 30, pluginName := some "pl-foo",
          outputPath := "/home/alice/feeds/feed_undefined/pl-dircopy_20/pl-foo_30/data/" }) :=
  ⟨rfl, rfl⟩

/-- C4: when the classifier reports a fresh directory and no dircopy plugin
is found among the available plugin names, the orchestrator returns null with
the dircopy-not-found diagnostic and issues no remote call at all. -/
theorem C4_dircopy_missing (env : Env) (pluginName : String)
    (pluginParams contextParams : Dictionary) (cwd : String) (binListing : List String)
    (hclass : env.path_isInFeed cwd = false)
    (hdir : env.path_findLatestDircopy binListing = none) :
    plugin_executeInPlace env pluginName pluginParams contextParams cwd binListing
      = { result := .ok none, calls := [],
          errors := ["pl-dircopy not found. Cannot create feeds."] } := by
  simp only [plugin_executeInPlace, plugin_executeNewFeed, hclass, hdir, Bool.not_false,
    if_true]

/-- C4 witness: the empty available-plugin list yields a null result, no
remote calls, and the dircopy-not-found message. -/
theorem C4_dircopy_missing_witness :
    plugin_executeInPlace envC4 "pl-x-v1.0.0" Dictionary.empty Dictionary.empty
      "/home/alice/uploads/study1" []
      = { result := .ok none, calls := [],
          errors := ["pl-dircopy not found. Cannot create feeds."] } :=
  C4_dircopy_missing envC4 "pl-x-v1.0.0" Dictionary.empty Dictionary.empty
    "/home/alice/uploads/study1" [] rfl rfl

/-- C5: when the create-feed call succeeds but the subsequent run call fails,
the orchestrator returns null and the create-feed operation was invoked
exactly once — the created feed is neither retried nor rolled back. -/
theorem C5_run_fails_after_create (env : Env) (pluginName : String)
    (pluginParams contextParams : Dictionary) (cwd : String) (binListing : List String)
    (F D : Int) (dircopyPlugin : String)
    (hclass : env.path_isInFeed cwd = false)
    (hdir : env.path_findLatestDircopy binListing = some dircopyPlugin)
    (hcreate : env.feed_create [cwd] ("title:" ++ feedTitleOf contextParams cwd)
      = some { id := some F, pluginInstance := some { data := some { id := some D } } })
    (hrun : env.plugin_run pluginName (combinedParamsOf pluginParams contextParams (.num D))
      = none) :
    (plugin_executeInPlace env pluginName pluginParams contextParams cwd binListing).result
      = .ok none ∧
    ((plugin_executeInPlace env pluginName pluginParams contextParams cwd
        binListing).calls.countP RemoteCall.isFeedCreate) = 1 := by
  simp only [plugin_executeInPlace, plugin_executeNewFeed, hclass, hdir, hcreate,
    Bool.not_false, if_true, jsOfNum?, hrun]
  refine ⟨?_, ?_⟩ <;> trivial

/-- C5 witness: a successful bootstrap followed by a failing run yields null
with exactly one create-feed call. -/
theorem C5_run_fails_after_create_witness :
    (plugin_executeInPlace envC5 "pl-x-v1.0.0" Dictionary.empty Dictionary.empty
      "/home/alice/uploads/study1" ["pl-dircopy-v2.1.1"]).result = .ok none ∧
    ((plugin_executeInPlace envC5 "pl-x-v1.0.0" Dictionary.empty Dictionary.empty
      "/home/alice/uploads/study1" ["pl-dircopy-v2.1.1"]).calls.countP
        RemoteCall.isFeedCreate) = 1 :=
  C5_run_fails_after_create envC5 "pl-x-v1.0.0" Dictionary.empty Dictionary.empty
    "/home/alice/uploads/study1" ["pl-dircopy-v2.1.1"] 10 20 "pl-dircopy-v2.1.1"
    rfl rfl rfl rfl

/-- C6: on the continue-feed path, when extracting the previous instance id
or the feed id from cwd yields null, the orchestrator returns null with one
diagnostic message and never invokes the remote run operation. -/
theorem C6_extraction_failure (env : Env) (pluginName : String)
    (pluginParams contextParams : Dictionary) (cwd : String) (binListing : List String)
    (hclass : env.path_isInFeed cwd = true)
    (hext : env.path_extractPluginInstanceID cwd = none ∨
      env.path_extractFeedID cwd = none) :
    (plugin_executeInPlace env pluginName pluginParams contextParams cwd binListing).result
      = .ok none ∧
    (plugin_executeInPlace env pluginName pluginParams contextParams cwd binListing).calls
      = [] ∧
    (plugin_executeInPlace env pluginName pluginParams contextParams cwd
        binListing).errors.length = 1 := by
  rcases hext with h | h
  · simp only [plugin_executeInPlace, plugin_executeContinueFeed, hclass, h,
      Bool.not_true, Bool.false_eq_true, if_false]
    refine ⟨?_, ?_, ?_⟩ <;> trivial
  · cases hp : env.path_extractPluginInstanceID cwd with
    | none =>
        simp only [plugin_executeInPlace, plugin_executeContinueFeed, hclass, hp,
          Bool.not_true, Bool.false_eq_true, if_false]
        refine ⟨?_, ?_, ?_⟩ <;> trivial
    | some I =>
        simp only [plugin_executeInPlace, plugin_executeContinueFeed, hclass, hp, h,
          Bool.not_true, Bool.false_eq_true, if_false]
        refine ⟨?_, ?_, ?_⟩ <;> trivial

/-- C6 witness: a feed-classified directory from which no instance id can be
extracted yields null, no remote calls, and one diagnostic. -/
theorem C6_extraction_failure_witness :
    (plugin_executeInPlace envC6 "pl-x-v1.0.0" Dictionary.empty Dictionary.empty
      "/home/alice/feeds/strange" []).result = .ok none ∧
    (plugin_executeInPlace envC6 "pl-x-v1.0.0" Dictionary.empty Dictionary.empty
      "/home/alice/feeds/strange" []).calls = [] ∧
    (plugin_executeInPlace envC6 "pl-x-v1.0.0" Dictionary.empty Dictionary.empty
      "/home/alice/feeds/strange" []).errors.length = 1 :=
  C6_extraction_failure envC6 "pl-x-v1.0.0" Dictionary.empty Dictionary.empty
    "/home/alice/feeds/strange" [] rfl (Or.inl rfl)

/-- C7: on both execution paths, the dictionary passed to the remote run
equals the caller's pluginParams extended with `previous_id` bound to the
resolved previous instance id (the bootstrap dircopy instance id on the
fresh-feed path, the extracted id on the continue-feed path) and with `title`
bound to the instance title exactly when that is provided (truthy); no other
key is added or removed. -/
theorem C7_runParams (env : Env) (pluginName : String)
    (pluginParams contextParams : Dictionary) (cwd : String) (binListing : List String)
    (name : String) (d : Dictionary)
    (hmem : RemoteCall.pluginRun name d
      ∈ (plugin_executeInPlace env pluginName pluginParams contextParams cwd
          binListing).calls) :
    (∀ F D, env.path_isInFeed cwd = false →
      env.feed_create [cwd] ("title:" ++ feedTitleOf contextParams cwd)
        = some { id := F, pluginInstance := some { data := some { id := some D } } } →
      ∀ k, d k =
        if k = "previous_id" then some (.num D)
        else if k = "title" ∧ instanceTitleTruthy contextParams = true then
          contextParams "instance_title"
        else pluginParams k) ∧
    (∀ I, env.path_isInFeed cwd = true →
      env.path_extractPluginInstanceID cwd = some I →
      ∀ k, d k =
        if k = "previous_id" then some (.num I)
        else if k = "title" ∧ instanceTitleTruthy contextParams = true then
          contextParams "instance_title"
        else pluginParams k) := by
  obtain ⟨hname, hcase⟩ := pluginRun_call_shape env pluginName pluginParams contextParams
    cwd binListing name d hmem
  constructor
  · intro F D hc hcr k
    rcases hcase with ⟨_, resp, pif, df, hcr', hpi, hdf, hd9⟩ | ⟨hc2, _⟩
    · rw [hcr'] at hcr
      have hresp := Option.some.inj hcr
      subst hresp
      have hpif : ({ data := some { id := some D } } : PluginInstanceField) = pif :=
        Option.some.inj hpi
      subst hpif
      have hdf2 : ({ id := some D } : DataField) = df := Option.some.inj hdf
      subst hdf2
      rw [hd9, combinedParamsOf_spec]
      simp [jsOfNum?]
    · rw [hc] at hc2
      cases hc2
  · intro I hc hI k
    rcases hcase with ⟨hc2, _⟩ | ⟨_, I2, hI2, hd9⟩
    · rw [hc] at hc2
      cases hc2
    · rw [hI2] at hI
      have hII := Option.some.inj hI
      subst hII
      rw [hd9, combinedParamsOf_spec]

/-- C7 witness: on a fresh-feed execution, the recorded run dictionary binds
previous_id to the bootstrap instance id 20 (overriding the caller's 999),
binds title to the provided instance title, and leaves other keys to the
caller's dictionary. -/
theorem C7_runParams_witness :
    combinedParamsOf paramsC7 ctxC7 (jsOfNum? (some 20)) "previous_id"
      = some (.num 20) ∧
    combinedParamsOf paramsC7 ctxC7 (jsOfNum? (some 20)) "title"
      = some (.str "Segment Cortex") ∧
    combinedParamsOf paramsC7 ctxC7 (jsOfNum? (some 20)) "outputdir"
      = paramsC7 "outputdir" := by
  have h := (C7_runParams envC7 "pl-foo-v1.0.0" paramsC7 ctxC7 "/home/alice/uploads/study1"
    ["pl-dircopy-v2.1.1"] "pl-foo-v1.0.0"
    (combinedParamsOf paramsC7 ctxC7 (jsOfNum? (some 20)))
    (List.Mem.tail _ (List.Mem.head _))).1 (some 10) 20 rfl rfl
  refine ⟨?_, ?_, ?_⟩
  · simpa using h "previous_id"
  · simpa using h "title"
  · simpa using h "outputdir"

/-- C8: output-path construction is total.  The continue-feed branch never
raises for any cwd; when no segment of cwd ends in `_I` the derivation falls
back to the synthesized best-guess path; and the fresh-feed derivation
produces its templated path for every cwd and every combination of possibly
missing response ids. -/
theorem C8_outputPath_total (env : Env) (pluginName : String)
    (pluginParams contextParams : Dictionary) (cwd : String) (binListing : List String) :
    (env.path_isInFeed cwd = true →
      ∃ v, (plugin_executeInPlace env pluginName pluginParams contextParams cwd
        binListing).result = .ok v) ∧
    (∀ I F resp, env.path_isInFeed cwd = true →
      env.path_extractPluginInstanceID cwd = some I →
      env.path_extractFeedID cwd = some F →
      env.plugin_run pluginName (combinedParamsOf pluginParams contextParams (.num I))
        = some resp →
      (∀ part ∈ jsSplitSlash cwd, jsEndsWith part ("_" ++ toString I) = false) →
      (plugin_executeInPlace env pluginName pluginParams contextParams cwd binListing).result
        = .ok (some
          { pluginInstanceID := resp.id, pluginName := resp.plugin_name,
            outputPath := "/home/" ++ showStr? (usernameOf cwd) ++ "/feeds/feed_" ++
              toString F ++ "/previous_" ++ toString I ++ "/" ++
              showStr? resp.plugin_name ++ "_" ++ showNum? resp.id ++ "/data/" })) ∧
    (∀ dp resp df respR, env.path_isInFeed cwd = false →
      env.path_findLatestDircopy binListing = some dp →
      env.feed_create [cwd] ("title:" ++ feedTitleOf contextParams cwd) = some resp →
      resp.pluginInstance = some { data := some df } →
      env.plugin_run pluginName
        (combinedParamsOf pluginParams contextParams (jsOfNum? df.id)) = some respR →
      (plugin_executeInPlace env pluginName pluginParams contextParams cwd binListing).result
        = .ok (some
          { feedID := some resp.id, dircopyInstanceID := some df.id,
            pluginInstanceID := respR.id, pluginName := respR.plugin_name,
            outputPath := "/home/" ++ showStr? (usernameOf cwd) ++ "/feeds/feed_" ++
              showNum? resp.id ++ "/pl-dircopy_" ++ showNum? df.id ++ "/" ++
              showStr? respR.plugin_name ++ "_" ++ showNum? respR.id ++ "/data/" })) := by
  refine ⟨?_, ?_, ?_⟩
  · intro hc
    cases hp : env.path_extractPluginInstanceID cwd with
    | none =>
        refine ⟨none, ?_⟩
        simp only [plugin_executeInPlace, plugin_executeContinueFeed, hc, hp,
          Bool.not_true, Bool.false_eq_true, if_false]
    | some I =>
        cases hf : env.path_extractFeedID cwd with
        | none =>
            refine ⟨none, ?_⟩
            simp only [plugin_executeInPlace, plugin_executeContinueFeed, hc, hp, hf,
              Bool.not_true, Bool.false_eq_true, if_false]
        | some F =>
            cases hr : env.plugin_run pluginName
                (combinedParamsOf pluginParams contextParams (.num I)) with
            | none =>
                refine ⟨none, ?_⟩
                simp only [plugin_executeInPlace, plugin_executeContinueFeed, hc, hp, hf,
                  hr, Bool.not_true, Bool.false_eq_true, if_false]
            | some resp =>
                refine ⟨some
                  { pluginInstanceID := resp.id, pluginName := resp.plugin_name,
                    outputPath := (if previousPluginPathOf cwd I = "" then
                        "/home/" ++ showStr? (usernameOf cwd) ++ "/feeds/feed_" ++
                        toString F ++ "/previous_" ++ toString I
                      else previousPluginPathOf cwd I) ++ "/" ++
                      showStr? resp.plugin_name ++ "_" ++ showNum? resp.id ++ "/data/" }, ?_⟩
                simp only [plugin_executeInPlace, plugin_executeContinueFeed, hc, hp, hf,
                  hr, Bool.not_true, Bool.false_eq_true, if_false]
  · intro I F resp hc hp hf hr hall
    have hnone : (jsSplitSlash cwd).findIdx?
        (fun part => jsEndsWith part ("_" ++ toString I)) = none :=
      List.findIdx?_eq_none_iff.mpr hall
    have heq : previousPluginPathOf cwd I = "" := by
      rw [previousPluginPathOf]
      simp only [hnone]
    simp only [plugin_executeInPlace, plugin_executeContinueFeed, hc, hp, hf, hr,
      Bool.not_true, Bool.false_eq_true, if_false, heq, if_true, showStr?, showNum?,
      String.append_assoc]
  · intro dp resp df respR hc hd hcr hpi hr
    simp only [plugin_executeInPlace, plugin_executeNewFeed, hc, Bool.not_false, if_true,
      hd, hcr, hpi, hr, showStr?, showNum?, String.append_assoc]

/-- C8 witness: a one-segment cwd with no matching segment still produces a
string output path, synthesized from the fallback with an undefined user. -/
theorem C8_outputPath_total_witness :
    (plugin_executeInPlace envC8 "pl-qux-v1.0.0" Dictionary.empty Dictionary.empty
      "x" []).result
      = .ok (some
        { pluginInstanceID := some 7, pluginName := some "pl-qux",
          outputPath := "/home/undefined/feeds/feed_10/previous_20/pl-qux_7/data/" }) :=
  (C8_outputPath_total envC8 "pl-qux-v1.0.0" Dictionary.empty Dictionary.empty "x" []).2.1
    20 10 { id := some 7, plugin_name := some "pl-qux" } rfl rfl rfl rfl (by decide)

/-- C9: every successful result has an outputPath ending in
`/<pluginName>_<pluginInstanceID>/data/` built from the same fields of the
result, and a continue-feed success record carries no feedID and no
dircopyInstanceID. -/
theorem C9_result_invariants (env : Env) (pluginName : String)
    (pluginParams contextParams : Dictionary) (cwd : String) (binListing : List String)
    (r : PluginExecutionResult)
    (h : (plugin_executeInPlace env pluginName pluginParams contextParams cwd
        binListing).result = .ok (some r)) :
    (∃ pre, r.outputPath
      = pre ++ ("/" ++ showStr? r.pluginName ++ "_" ++ showNum? r.pluginInstanceID ++
          "/data/")) ∧
    (env.path_isInFeed cwd = true → r.feedID = none ∧ r.dircopyInstanceID = none) := by
  cases hc : env.path_isInFeed cwd with
  | false =>
      simp only [plugin_executeInPlace, plugin_executeNewFeed, hc, Bool.not_false,
        if_true] at h
      cases hd : env.path_findLatestDircopy binListing with
      | none => simp [hd] at h
      | some dp =>
          simp only [hd] at h
          cases hcr : env.feed_create [cwd] ("title:" ++ feedTitleOf contextParams cwd) with
          | none => simp [hcr] at h
          | some resp =>
              simp only [hcr] at h
              cases hpi : resp.pluginInstance with
              | none => simp [hpi] at h
              | some pif =>
                  simp only [hpi] at h
                  cases hdf : pif.data with
                  | none => simp [hdf] at h
                  | some df =>
                      simp only [hdf] at h
                      cases hr : env.plugin_run pluginName
                          (combinedParamsOf pluginParams contextParams (jsOfNum? df.id)) with
                      | none => simp [hr] at h
                      | some respR =>
                          simp only [hr, Except.ok.injEq, Option.some.injEq] at h
                          subst h
                          refine ⟨append_outputPath_decomp _ _ _, ?_⟩
                          intro hc2
                          cases hc2
  | true =>
      simp only [plugin_executeInPlace, plugin_executeContinueFeed, hc, Bool.not_true,
        Bool.false_eq_true, if_false] at h
      cases hp : env.path_extractPluginInstanceID cwd with
      | none => simp [hp] at h
      | some I =>
          simp only [hp] at h
          cases hf : env.path_extractFeedID cwd with
          | none => simp [hf] at h
          | some F =>
              simp only [hf] at h
              cases hr : env.plugin_run pluginName
                  (combinedParamsOf pluginParams contextParams (.num I)) with
              | none => simp [hr] at h
              | some respR =>
                  simp only [hr, Except.ok.injEq, Option.some.injEq] at h
                  subst h
                  exact ⟨append_outputPath_decomp _ _ _, fun _ => ⟨rfl, rfl⟩⟩

/-- C9 witness: the continue-feed success record under a concrete backend
has no feedID and no dircopyInstanceID. -/
theorem C9_result_invariants_witness :
    rC9.feedID = none ∧ rC9.dircopyInstanceID = none :=
  (C9_result_invariants envC9 "pl-bar-v1.0.0" Dictionary.empty Dictionary.empty
    "/home/alice/feeds/feed_10/pl-dircopy_20/data/" [] rC9 rfl).2 rfl

/-- C10: when the caller's pluginParams already contains a previous_id key,
the value sent to the remote run under previous_id is the orchestrator's
derived previous instance id, on both execution paths. -/
theorem C10_callerPreviousID_discarded (env : Env) (pluginName : String)
    (pluginParams contextParams : Dictionary) (cwd : String) (binListing : List String)
    (name : String) (d : Dictionary) (v : JSVal)
    (hcaller : pluginParams "previous_id" = some v)
    (hmem : RemoteCall.pluginRun name d
      ∈ (plugin_executeInPlace env pluginName pluginParams contextParams cwd
          binListing).calls) :
    (∀ F D, env.path_isInFeed cwd = false →
      env.feed_create [cwd] ("title:" ++ feedTitleOf contextParams cwd)
        = some { id := F, pluginInstance := some { data := some { id := some D } } } →
      d "previous_id" = some (.num D)) ∧
    (∀ I, env.path_isInFeed cwd = true →
      env.path_extractPluginInstanceID cwd = some I →
      d "previous_id" = some (.num I)) := by
  obtain ⟨hname, hcase⟩ := pluginRun_call_shape env pluginName pluginParams contextParams
    cwd binListing name d hmem
  constructor
  · intro F D hc hcr
    rcases hcase with ⟨_, resp, pif, df, hcr', hpi, hdf, hd9⟩ | ⟨hc2, _⟩
    · rw [hcr'] at hcr
      have hresp := Option.some.inj hcr
      subst hresp
      have hpif : ({ data := some { id := some D } } : PluginInstanceField) = pif :=
        Option.some.inj hpi
      subst hpif
      have hdf2 : ({ id := some D } : DataField) = df := Option.some.inj hdf
      subst hdf2
      rw [hd9, combinedParamsOf_spec]
      simp [jsOfNum?]
    · rw [hc] at hc2
      cases hc2
  · intro I hc hI
    rcases hcase with ⟨hc2, _⟩ | ⟨_, I2, hI2, hd9⟩
    · rw [hc] at hc2
      cases hc2
    · rw [hI2] at hI
      have hII := Option.some.inj hI
      subst hII
      rw [hd9, combinedParamsOf_spec]
      simp

/-- C10 witness: a caller-supplied previous_id of 999 is replaced by the
extracted id 456 on the continue-feed path. -/
theorem C10_callerPreviousID_discarded_witness :
    combinedParamsOf paramsC7 Dictionary.empty (.num 456) "previous_id"
      = some (.num 456) :=
  (C10_callerPreviousID_discarded envC10 "pl-seg-v1.0.0" paramsC7
    Dictionary.empty "/home/chris/feeds/feed_123/pl-dircopy_456/data/" []
    "pl-seg-v1.0.0" (combinedParamsOf paramsC7 Dictionary.empty (.num 456))
    (.num 999) rfl (List.Mem.head _)).2 456 rfl rfl
